import Mathlib

/-!
Verification of the distributed-matrix distribution/redistribution engine of the
Elemental library, centred on the `[MR,* ]` distribution implemented in
`src/core/DistMatrix/Base_MR_STAR.cpp`.

A `[MR,* ]` matrix distributes its rows cyclically over the grid columns
(`MR` ranks) and replicates its columns over the grid rows.  The SPMD ensemble
of per-process objects is modelled by a single Lean structure holding the
replicated scalar fields once and the per-process local buffers as functions of
the owning grid coordinate.  Collective communication is modelled by a trace of
issued collective operations, and fatal errors (`throw`) by `Except`.
-/

/-- Minimum collective message size (`mpi::MIN_COLL_MSG`); the padding floor for
collective portion sizes.  Any positive constant; `1` here. -/
def MIN_COLL_MSG : Nat := 1

/-- Modelled from the spec: `Shift(rank, alignment, stride) =
(rank − alignment + stride) mod stride` — the utility header defining
`Shift`/`RawShift` is not under `src/`.  `alignment < stride` in all uses, so
Nat subtraction agrees with the C expression. -/
def Shift (rank alignment stride : Nat) : Nat :=
  (rank + stride - alignment) % stride

/-- Modelled from the spec: `LocalLength(n, shift, stride)` is the number of
indices `i` in `[0,n)` with `i mod stride = shift`, i.e. `⌈(n−shift)/stride⌉`
clamped at 0 — the utility header defining `LocalLength`/`RawLocalLength` is
not under `src/`.  Nat subtraction performs the clamping. -/
def LocalLength (n shift stride : Nat) : Nat :=
  (n - shift + stride - 1) / stride

/-- Modelled from the spec: maximum of `LocalLength n shift stride` over all
shifts, attained at shift 0. -/
def MaxLocalLength (n stride : Nat) : Nat :=
  LocalLength n 0 stride

/-- Modelled from the spec: `Owner(i, alignment, stride) = (i + alignment) mod
stride`, the rank owning global index `i` along a cyclically distributed
axis. -/
def Owner (i alignment stride : Nat) : Nat :=
  (i + alignment) % stride

/-- The communication scopes exposed by the process grid: per-column (`MCComm`,
spanning the grid rows of one column), per-row (`MRComm`), and the two linear
orders (`VCComm`, `VRComm`). -/
inductive CommScope where
  | mcComm
  | mrComm
  | vcComm
  | vrComm
deriving DecidableEq

/-- A collective operation issued on a communication scope; the trace of a
routine records them in program order. -/
inductive CollOp where
  | allGather (scope : CommScope)
  | sendRecv (scope : CommScope)
  | broadcast (scope : CommScope)
  | allReduce (scope : CommScope)
deriving DecidableEq

/-- The process grid: `r` rows and `c` columns of processes.  The `MR` rank of
a process is its grid column index, the `MC` rank its grid row index, and its
`VR` (row-major linear) rank is `col + c * row`. -/
structure Grid where
  r : Nat
  c : Nat

/-- Grid size `p = r * c`. -/
def Grid.size (g : Grid) : Nat := g.r * g.c

/-- SPMD ensemble of a `DistMatrixBase<T,MR,STAR>`: rows are distributed
cyclically over the grid columns, columns are replicated over the grid rows,
so the local buffer depends only on the grid column.  `colShift` and
`localHeight` are the per-process stored fields, as functions of the grid
column (`MR` rank). -/
structure MRSTARMat (α : Type) where
  height : Nat
  width : Nat
  colAlignment : Nat
  constrainedColAlignment : Bool
  viewing : Bool
  lockedView : Bool
  colShift : Nat → Nat
  localHeight : Nat → Nat
  localData : Nat → Nat → Nat → α

/-- Ensemble of a `DistMatrixBase<T,STAR,STAR>`: every process stores an
identical full copy, recorded once. -/
structure STARSTARMat (α : Type) where
  height : Nat
  width : Nat
  localData : Nat → Nat → α

/-- Ensemble of a `DistMatrixBase<T,VR,STAR>`: rows distributed cyclically over
all `p` processes in row-major (`VR`) linear order; per-process fields are
functions of the `VR` rank. -/
structure VRSTARMat (α : Type) where
  height : Nat
  width : Nat
  colAlignment : Nat
  colShift : Nat → Nat
  localHeight : Nat → Nat
  localData : Nat → Nat → Nat → α

/-- Ensemble of a `DistMatrixBase<T,MR,MC>`: rows distributed over grid columns,
columns over grid rows; the local buffer depends on both grid coordinates
(`localData row col iLocal jLocal`). -/
structure MRMCMat (α : Type) where
  height : Nat
  width : Nat
  colAlignment : Nat
  rowAlignment : Nat
  colShift : Nat → Nat
  rowShift : Nat → Nat
  localHeight : Nat → Nat
  localWidth : Nat → Nat
  localData : Nat → Nat → Nat → Nat → α

/-- Shape of a `DistMatrixBase<T,MD,STAR>` source; only its global extents are
ever consulted (assignment from it fails before touching its data). -/
structure MDSTARMat (α : Type) where
  height : Nat
  width : Nat

/-- Shape of a `DistMatrixBase<T,STAR,MD>` source. -/
structure STARMDMat (α : Type) where
  height : Nat
  width : Nat

namespace MRSTAR

/-- `Matrix::ResizeTo` on the local buffer combined with the distributed
prologue of `[MR,* ]::ResizeTo`, without the view assertions: sets the global
extents and recomputes each process's local height as
`LocalLength(height, colShift, c)`; the reallocated storage does not preserve
old contents (fresh buffer). -/
def resizeUnchecked [Inhabited α] (g : Grid) (M : MRSTARMat α)
    (height width : Nat) : MRSTARMat α :=
  { M with
    height := height
    width := width
    localHeight := fun col => LocalLength height (M.colShift col) g.c
    localData := fun _ _ _ => default }

/-- `[MR,* ]::ResizeTo` (Base_MR_STAR.cpp:620-638): asserts the object is not a
locked view, then resizes.  The failure of `Matrix::ResizeTo` on a fixed-size
view with mismatched shape is modelled from the spec (`Matrix` is not under
`src/`): "fails on views with mismatched fixed size". -/
def ResizeTo [Inhabited α] (g : Grid) (M : MRSTARMat α)
    (height width : Nat) : Except String (MRSTARMat α) :=
  if M.lockedView then
    .error "Assertion that matrix not be a locked view failed"
  else if M.viewing && (height != M.height || width != M.width) then
    .error "Viewed matrices cannot be resized to a different shape"
  else
    .ok (resizeUnchecked g M height width)

/-- `[MR,* ]::AlignCols` (Base_MR_STAR.cpp:140-163): requires a free column
alignment (`AssertFreeColAlignment`, modelled from the spec precondition that
the alignment not yet be constrained) and a valid alignment in `[0, c)`;
stores the alignment, recomputes the shift on every process, marks the
alignment constrained, and invalidates the storage (global extents reset to 0,
local matrix resized to 0 x 0). -/
def AlignCols [Inhabited α] (g : Grid) (M : MRSTARMat α)
    (colAlignment : Nat) : Except String (MRSTARMat α) :=
  if M.constrainedColAlignment then
    .error "Assertion that column alignment be free failed"
  else if g.c ≤ colAlignment then
    .error "Invalid column alignment for [MR,* ]"
  else
    .ok { M with
          colAlignment := colAlignment
          colShift := fun col => Shift col colAlignment g.c
          constrainedColAlignment := true
          height := 0
          width := 0
          localHeight := fun _ => 0
          localData := fun _ _ _ => default }

/-- `[MR,* ]::AlignWith(const DistMatrixBase<T,MR,MC>&)`
(Base_MR_STAR.cpp:165-184): requires a free column alignment; copies the
reference's column alignment and shift, marks the alignment constrained, and
invalidates the storage. -/
def AlignWithMRMC [Inhabited α] (_g : Grid) (M : MRSTARMat α)
    (A : MRMCMat α) : Except String (MRSTARMat α) :=
  if M.constrainedColAlignment then
    .error "Assertion that column alignment be free failed"
  else
    .ok { M with
          colAlignment := A.colAlignment
          colShift := A.colShift
          constrainedColAlignment := true
          height := 0
          width := 0
          localHeight := fun _ => 0
          localData := fun _ _ _ => default }

/-- `[MR,* ]::View(A, i, j, height, width)` (Base_MR_STAR.cpp:377-411): a
submatrix view at row offset `i` gets column alignment
`(A.ColAlignment() + i) mod c`, its shift recomputed from it, and its local
buffer referencing A's local buffer at row offset
`LocalLength(i, A.ColShift(), c)` and column offset `j`. -/
def View (g : Grid) (A : MRSTARMat α) (i j height width : Nat) : MRSTARMat α :=
  let colAlignment := (A.colAlignment + i) % g.c
  { height := height
    width := width
    colAlignment := colAlignment
    constrainedColAlignment := false
    viewing := true
    lockedView := false
    colShift := fun col => Shift col colAlignment g.c
    localHeight := fun col => LocalLength height (Shift col colAlignment g.c) g.c
    localData := fun col iLocal jLocal =>
      A.localData col (LocalLength i (A.colShift col) g.c + iLocal) (j + jLocal) }

/-- `[MR,* ]::Get(i, j)` (Base_MR_STAR.cpp:640-666): the owning grid column is
`(i + colAlignment) mod c`; processes of that column read local entry
`((i − colShift)/c, j)`, and the value is broadcast within each process row
(`MRComm`), so the returned per-process value (indexed `row`, `col`) is the
owner's. -/
def Get (g : Grid) (M : MRSTARMat α) (i j : Nat) :
    (Nat → Nat → α) × List CollOp :=
  let ownerCol := (i + M.colAlignment) % g.c
  let u := M.localData ownerCol ((i - M.colShift ownerCol) / g.c) j
  (fun _row _col => u, [CollOp.broadcast CommScope.mrComm])

/-- `[MR,* ]::Set(i, j, u)` (Base_MR_STAR.cpp:668-688): processes whose `MR`
rank equals the owning column write local entry `((i − colShift)/c, j)`; no
communication. -/
def Set (g : Grid) (M : MRSTARMat α) (i j : Nat) (u : α) :
    MRSTARMat α × List CollOp :=
  let ownerCol := (i + M.colAlignment) % g.c
  ({ M with
     localData := fun col iLocal jLocal =>
       if col = ownerCol ∧ iLocal = (i - M.colShift col) / g.c ∧ jLocal = j
       then u
       else M.localData col iLocal jLocal }, [])

/-- `[MR,* ]::Update(i, j, u)` (Base_MR_STAR.cpp:690-710): like `Set` but
accumulates into the owned local entry; no communication. -/
def Update [Add α] (g : Grid) (M : MRSTARMat α) (i j : Nat) (u : α) :
    MRSTARMat α × List CollOp :=
  let ownerCol := (i + M.colAlignment) % g.c
  ({ M with
     localData := fun col iLocal jLocal =>
       if col = ownerCol ∧ iLocal = (i - M.colShift col) / g.c ∧ jLocal = j
       then M.localData col iLocal jLocal + u
       else M.localData col iLocal jLocal }, [])

/-- A single element write into a local buffer (one assignment of an unpack
loop); later writes shadow earlier ones. -/
def writeEntry (f : Nat → Nat → α) (i j : Nat) (v : α) : Nat → Nat → α :=
  fun i2 j2 => if i2 = i ∧ j2 = j then v else f i2 j2

/-- `[MR,* ]::operator=(const DistMatrixBase<T,MR,STAR>&)`
(Base_MR_STAR.cpp:1665-1757).  A non-viewing target adopts the source's
alignment and shift when unconstrained, then resizes.  If the column alignments
agree the local matrix is copied directly with no communication; otherwise each
grid column packs its local columns contiguously, exchanges them with its
alignment-shifted partner by a paired send/receive within `MRComm`, and unpacks
column by column. -/
def assignFromMRSTAR [Inhabited α] (g : Grid) (B A : MRSTARMat α) :
    MRSTARMat α × List CollOp :=
  let B1 :=
    if B.viewing then B
    else
      let B0 :=
        if B.constrainedColAlignment then B
        else { B with colAlignment := A.colAlignment, colShift := A.colShift }
      resizeUnchecked g B0 A.height A.width
  if B1.colAlignment = A.colAlignment then
    ({ B1 with localHeight := A.localHeight, localData := A.localData }, [])
  else
    let c := g.c
    let recvRank := fun col => (col + c + A.colAlignment - B1.colAlignment) % c
    let sendBuffer := fun q k =>
      A.localData q (k % A.localHeight q) (k / A.localHeight q)
    let recvBuffer := fun col k => sendBuffer (recvRank col) k
    ({ B1 with
       localData := fun col iLocal j =>
         recvBuffer col (j * B1.localHeight col + iLocal) },
     [CollOp.sendRecv CommScope.mrComm])

/-- `[MR,* ]::operator=(const DistMatrixBase<T,STAR,STAR>&)`
(Base_MR_STAR.cpp:2043-2080).  A non-viewing target is resized; each process
locally subselects the rows it owns (`colShift + iLocal * c`); no
communication. -/
def assignFromSTARSTAR [Inhabited α] (g : Grid) (B : MRSTARMat α)
    (A : STARSTARMat α) : MRSTARMat α × List CollOp :=
  let B1 := if B.viewing then B else resizeUnchecked g B A.height A.width
  ({ B1 with
     localData := fun col iLocal j =>
       A.localData (B1.colShift col + iLocal * g.c) j }, [])

/-- `[MR,* ]::operator=(const DistMatrixBase<T,VR,STAR>&)`
(Base_MR_STAR.cpp:1828-2012).  A non-viewing unconstrained target adopts
alignment `A.ColAlignment() mod c` and resizes.  Aligned case: each process
packs its shard and an all-gather within `MCComm` assembles the `r` shards of
one's grid column, which are unpacked with row stride `r` at offset
`(Shift(col + c*k, colAlignment, p) − colShift)/c`.  Unaligned case: a paired
send/receive within `VRComm` first realigns the shards, then the same
all-gather and unpack follow. -/
def assignFromVRSTAR [Inhabited α] (g : Grid) (B : MRSTARMat α)
    (A : VRSTARMat α) : MRSTARMat α × List CollOp :=
  let r := g.r
  let c := g.c
  let p := r * c
  let B1 :=
    if B.viewing then B
    else
      let B0 :=
        if B.constrainedColAlignment then B
        else { B with
               colAlignment := A.colAlignment % c
               colShift := fun col => Shift col (A.colAlignment % c) c }
      resizeUnchecked g B0 A.height A.width
  let height := B1.height
  let width := B1.width
  if B1.colAlignment = A.colAlignment % c then
    let originalData := fun q k =>
      A.localData q (k % A.localHeight q) (k / A.localHeight q)
    ({ B1 with
       localData := fun col =>
         (List.range r).foldl (fun f k =>
           let colShiftOfA := Shift (col + c * k) A.colAlignment p
           let colOffset := (colShiftOfA - B1.colShift col) / c
           let localHeightK := LocalLength height colShiftOfA p
           (List.range width).foldl (fun f2 j =>
             (List.range localHeightK).foldl (fun f3 iLocal =>
               writeEntry f3 (colOffset + iLocal * r) j
                 (originalData (col + c * k) (iLocal + j * localHeightK))) f2) f)
           (B1.localData col) },
     [CollOp.allGather CommScope.mcComm])
  else
    let recvRank := fun q => (q + p + A.colAlignment - B1.colAlignment) % p
    let secondBuffer := fun q k =>
      A.localData q (k % A.localHeight q) (k / A.localHeight q)
    let firstBuffer := fun q k => secondBuffer (recvRank q) k
    ({ B1 with
       localData := fun col =>
         (List.range r).foldl (fun f k =>
           let colShiftOfA := Shift (col + c * k) B1.colAlignment p
           let colOffset := (colShiftOfA - B1.colShift col) / c
           let localHeightK := LocalLength height colShiftOfA p
           (List.range width).foldl (fun f2 j =>
             (List.range localHeightK).foldl (fun f3 iLocal =>
               writeEntry f3 (colOffset + iLocal * r) j
                 (firstBuffer (col + c * k) (iLocal + j * localHeightK))) f2) f)
           (B1.localData col) },
     [CollOp.sendRecv CommScope.vrComm, CollOp.allGather CommScope.mcComm])

/-- `[MR,* ]::operator=(const DistMatrixBase<T,MR,MC>&)`
(Base_MR_STAR.cpp:1493-1663).  A non-viewing unconstrained target adopts the
source's column alignment and resizes.  Aligned case: each process packs its
local panel and an all-gather within `MCComm` assembles the `r` panels of one's
grid column, unpacked column by column at column stride `r` starting from
`Shift(k, A.RowAlignment(), r)`.  Unaligned case: a paired send/receive within
`MRComm` realigns the panels first, then the same all-gather and unpack
follow. -/
def assignFromMRMC [Inhabited α] (g : Grid) (B : MRSTARMat α)
    (A : MRMCMat α) : MRSTARMat α × List CollOp :=
  let r := g.r
  let c := g.c
  let B1 :=
    if B.viewing then B
    else
      let B0 :=
        if B.constrainedColAlignment then B
        else { B with
               colAlignment := A.colAlignment
               colShift := fun col => Shift col A.colAlignment c }
      resizeUnchecked g B0 A.height A.width
  let width := B1.width
  if B1.colAlignment = A.colAlignment then
    let originalData := fun k col idx =>
      A.localData k col (idx % B1.localHeight col) (idx / B1.localHeight col)
    ({ B1 with
       localData := fun col =>
         (List.range r).foldl (fun f k =>
           let rowShift := Shift k A.rowAlignment r
           let localWidthK := LocalLength width rowShift r
           (List.range localWidthK).foldl (fun f2 jLocal =>
             (List.range (B1.localHeight col)).foldl (fun f3 iLocal =>
               writeEntry f3 iLocal (rowShift + jLocal * r)
                 (originalData k col (iLocal + jLocal * B1.localHeight col)))
               f2) f)
           (B1.localData col) },
     [CollOp.allGather CommScope.mcComm])
  else
    let recvCol := fun col => (col + c + A.colAlignment - B1.colAlignment) % c
    let secondBuffer := fun k q idx =>
      A.localData k q (idx % A.localHeight q) (idx / A.localHeight q)
    let firstBuffer := fun k col idx => secondBuffer k (recvCol col) idx
    ({ B1 with
       localData := fun col =>
         (List.range r).foldl (fun f k =>
           let rowShift := Shift k A.rowAlignment r
           let localWidthK := LocalLength width rowShift r
           (List.range localWidthK).foldl (fun f2 jLocal =>
             (List.range (B1.localHeight col)).foldl (fun f3 iLocal =>
               writeEntry f3 iLocal (rowShift + jLocal * r)
                 (firstBuffer k col (iLocal + jLocal * B1.localHeight col)))
               f2) f)
           (B1.localData col) },
     [CollOp.sendRecv CommScope.mrComm, CollOp.allGather CommScope.mcComm])

/-- `[MR,* ]::operator=(const DistMatrixBase<T,MD,STAR>&)`
(Base_MR_STAR.cpp:1455-1472): throws unconditionally ("not yet implemented")
before issuing any collective; the target is never modified. -/
def assignFromMDSTAR (_g : Grid) (_B : MRSTARMat α) (_A : MDSTARMat α) :
    Except String (MRSTARMat α) × List CollOp :=
  (.error "[MR,* ] = [MD,* ] not yet implemented.", [])

/-- `[MR,* ]::operator=(const DistMatrixBase<T,STAR,MD>&)`
(Base_MR_STAR.cpp:1474-1491): throws unconditionally ("not yet implemented")
before issuing any collective; the target is never modified. -/
def assignFromSTARMD (_g : Grid) (_B : MRSTARMat α) (_A : STARMDMat α) :
    Except String (MRSTARMat α) × List CollOp :=
  (.error "[MR,* ] = [* ,MD] not yet implemented.", [])

end MRSTAR

/-- Modelled from the spec: the `[* ,* ] = [MR,* ]` conversion (coarsen) is
implemented in `Base_STAR_STAR.cpp`, which is not under `src/`.  Per the spec,
when the target axis is replicated and the source cyclic, an all-gather within
that axis's scope assembles every process's shard into a full local copy on
every participant: global row `i` lives on grid column
`Owner(i, colAlignment, c)` at local row `(i − colShift)/c`. -/
def starstarFromMRSTAR (g : Grid) (A : MRSTARMat α) :
    STARSTARMat α × List CollOp :=
  ({ height := A.height
     width := A.width
     localData := fun i j =>
       A.localData (Owner i A.colAlignment g.c)
         ((i - A.colShift (Owner i A.colAlignment g.c)) / g.c) j },
   [CollOp.allGather CommScope.mrComm])

namespace MRSTAR

/-- The per-process shift fields agree with the `Shift` formula: on every grid
column `col < c`, `colShift col = Shift(col, colAlignment, c)`. -/
@[reducible]
def shiftOK (g : Grid) (M : MRSTARMat α) : Prop :=
  ∀ col, col < g.c → M.colShift col = Shift col M.colAlignment g.c

/-- The ensemble `M` represents the global matrix `G`: the alignment is in
range, the shifts and local heights follow the distribution formulas, and on
every grid column the local buffer stores exactly the owned global rows
(`colShift + iLocal * c`). -/
@[reducible]
def repOK (g : Grid) (M : MRSTARMat α) (G : Nat → Nat → α) : Prop :=
  M.colAlignment < g.c ∧
  shiftOK g M ∧
  (∀ col, col < g.c → M.localHeight col = LocalLength M.height (M.colShift col) g.c) ∧
  (∀ col, col < g.c → ∀ iLocal, iLocal < M.localHeight col →
    ∀ j, j < M.width →
      M.localData col iLocal j = G (M.colShift col + iLocal * g.c) j)

/-- The global entry stored for index `(i, j)`: read on the owning grid column
`Owner(i, colAlignment, c)` at local row `(i − colShift)/c` (the value `Get`
returns everywhere). -/
def globalEntry (g : Grid) (M : MRSTARMat α) (i j : Nat) : α :=
  M.localData (Owner i M.colAlignment g.c)
    ((i - M.colShift (Owner i M.colAlignment g.c)) / g.c) j

end MRSTAR

lemma Shift_lt (rank a : Nat) {c : Nat} (hc : 0 < c) : Shift rank a c < c :=
  Nat.mod_lt _ hc

lemma LocalLength_zero (s : Nat) {c : Nat} (hc : 0 < c) :
    LocalLength 0 s c = 0 := by
  unfold LocalLength
  apply Nat.div_eq_of_lt
  omega

lemma lt_of_lt_LocalLength {n s c iLocal : Nat} (hc : 0 < c)
    (h : iLocal < LocalLength n s c) : s + iLocal * c < n := by
  unfold LocalLength at h
  have h1 : (iLocal + 1) * c ≤ n - s + c - 1 :=
    (Nat.le_div_iff_mul_le hc).mp h
  have h2 : (iLocal + 1) * c = iLocal * c + c := by ring
  omega

lemma div_lt_LocalLength {n c i : Nat} (hc : 0 < c) (h : i < n) :
    i / c < LocalLength n (i % c) c := by
  unfold LocalLength
  have h1 : c * (i / c) + i % c = i := Nat.div_add_mod i c
  have h3 : i % c < c := Nat.mod_lt _ hc
  have h4 : (i / c + 1) * c = c * (i / c) + c := by ring
  have : (i / c + 1) * c ≤ n - i % c + c - 1 := by omega
  exact Nat.lt_of_succ_le ((Nat.le_div_iff_mul_le hc).mpr this)

lemma Shift_Owner {a c : Nat} (i : Nat) (ha : a < c) :
    Shift (Owner i a c) a c = i % c := by
  unfold Shift Owner
  have h1 : (i + a) % c + c - a = (i + a) % c + (c - a) := by omega
  rw [h1, Nat.mod_add_mod]
  have h2 : i + a + (c - a) = i + c := by omega
  rw [h2, Nat.add_mod_right]

lemma Shift_recvRank {aA aB c : Nat} (col : Nat) (haA : aA < c) (haB : aB < c) :
    Shift ((col + c + aA - aB) % c) aA c = Shift col aB c := by
  unfold Shift
  have h1 : (col + c + aA - aB) % c + c - aA
      = (col + c + aA - aB) % c + (c - aA) := by omega
  rw [h1, Nat.mod_add_mod]
  have h2 : col + c + aA - aB + (c - aA) = (col + c - aB) + c := by omega
  rw [h2, Nat.add_mod_right]

lemma flat_mod {L iLocal : Nat} (j : Nat) (hi : iLocal < L) :
    (j * L + iLocal) % L = iLocal := by
  rw [Nat.mul_comm, Nat.mul_add_mod]
  exact Nat.mod_eq_of_lt hi

lemma flat_div {L iLocal : Nat} (j : Nat) (hL : 0 < L) (hi : iLocal < L) :
    (j * L + iLocal) / L = j := by
  rw [Nat.mul_comm, Nat.mul_add_div hL, Nat.div_eq_of_lt hi]
  omega


lemma MRSTAR.repOK_globalEntry {α : Type} {g : Grid} {M : MRSTARMat α}
    {G : Nat → Nat → α} {i j : Nat} (hc : 0 < g.c) (h : MRSTAR.repOK g M G)
    (hi : i < M.height) (hj : j < M.width) :
    MRSTAR.globalEntry g M i j = G i j := by
  obtain ⟨ha, hs, hh, hd⟩ := h
  have ho_lt : Owner i M.colAlignment g.c < g.c := Nat.mod_lt _ hc
  have hso : M.colShift (Owner i M.colAlignment g.c) = i % g.c := by
    rw [hs _ ho_lt, Shift_Owner i ha]
  have hiLoc : (i - M.colShift (Owner i M.colAlignment g.c)) / g.c = i / g.c := by
    rw [hso]
    have h1 : i - i % g.c = g.c * (i / g.c) := by
      have := Nat.div_add_mod i g.c
      omega
    rw [h1, Nat.mul_div_cancel_left _ hc]
  have hlt : i / g.c < M.localHeight (Owner i M.colAlignment g.c) := by
    rw [hh _ ho_lt, hso]
    exact div_lt_LocalLength hc hi
  unfold MRSTAR.globalEntry
  rw [hiLoc, hd _ ho_lt _ hlt _ hj, hso, Nat.mod_add_div' i g.c]


namespace MRSTAR

/-- The spec-modelled coarsen `[* ,* ] = [MR,* ]` assembles exactly the
represented global matrix on every process. -/
lemma starstarFromMRSTAR_entries {α : Type} {g : Grid} {M : MRSTARMat α}
    {G : Nat → Nat → α} (hc : 0 < g.c) (hM : repOK g M G) :
    ∀ i, i < M.height → ∀ j, j < M.width →
      (starstarFromMRSTAR g M).1.localData i j = G i j := by
  intro i hi j hj
  exact repOK_globalEntry hc hM hi hj

/-- De-replication (`[MR,* ] = [* ,* ]`, the communication-free refine) turns a
faithful `[* ,* ]` source into a faithful `[MR,* ]` ensemble with the target's
own alignment. -/
lemma assignFromSTARSTAR_repOK {α : Type} [Inhabited α] {g : Grid}
    {B : MRSTARMat α} {S : STARSTARMat α} {G : Nat → Nat → α} (hc : 0 < g.c)
    (hBv : B.viewing = false) (hBa : B.colAlignment < g.c) (hBs : shiftOK g B)
    (hS : ∀ i, i < S.height → ∀ j, j < S.width → S.localData i j = G i j) :
    repOK g (assignFromSTARSTAR g B S).1 G ∧
    (assignFromSTARSTAR g B S).1.height = S.height ∧
    (assignFromSTARSTAR g B S).1.width = S.width ∧
    (assignFromSTARSTAR g B S).1.colAlignment = B.colAlignment := by
  unfold assignFromSTARSTAR
  rw [hBv]
  simp only [Bool.false_eq_true, if_false]
  refine ⟨⟨hBa, hBs, fun col hcol => rfl, ?_⟩, rfl, rfl, rfl⟩
  intro col hcol iLocal hiLocal j hj
  exact hS _ (lt_of_lt_LocalLength hc hiLocal) _ hj

/-- `[MR,* ] = [MR,* ]` preserves the represented global matrix for a
non-viewing, alignment-constrained target (both the aligned fast path and the
alignment-shifted send/receive path). -/
lemma assignFromMRSTAR_repOK {α : Type} [Inhabited α] {g : Grid}
    {B A : MRSTARMat α} {G : Nat → Nat → α} (hc : 0 < g.c)
    (hA : repOK g A G) (hBv : B.viewing = false)
    (hBcon : B.constrainedColAlignment = true)
    (hBa : B.colAlignment < g.c) (hBs : shiftOK g B) :
    repOK g (assignFromMRSTAR g B A).1 G ∧
    (assignFromMRSTAR g B A).1.height = A.height ∧
    (assignFromMRSTAR g B A).1.width = A.width ∧
    (assignFromMRSTAR g B A).1.colAlignment = B.colAlignment := by
  obtain ⟨hAa, hAs, hAh, hAd⟩ := hA
  unfold assignFromMRSTAR
  rw [hBv, hBcon]
  simp only [Bool.false_eq_true, if_false, eq_self_iff_true, if_true]
  by_cases h : B.colAlignment = A.colAlignment
  · rw [if_pos (show (resizeUnchecked g B A.height A.width).colAlignment
        = A.colAlignment from h)]
    refine ⟨⟨hBa, hBs, ?_, ?_⟩, rfl, rfl, rfl⟩
    · intro col hcol
      show A.localHeight col = LocalLength A.height (B.colShift col) g.c
      rw [hAh col hcol, hAs col hcol, hBs col hcol, h]
    · intro col hcol iLocal hiLocal j hj
      have hshift : B.colShift col = A.colShift col := by
        rw [hBs col hcol, hAs col hcol, h]
      show A.localData col iLocal j = G (B.colShift col + iLocal * g.c) j
      rw [hshift]
      exact hAd col hcol iLocal hiLocal j hj
  · rw [if_neg (show ¬ (resizeUnchecked g B A.height A.width).colAlignment
        = A.colAlignment from h)]
    refine ⟨⟨hBa, hBs, fun col hcol => rfl, ?_⟩, rfl, rfl, rfl⟩
    intro col hcol iLocal hiLocal j hj
    have hrecv_lt : (col + g.c + A.colAlignment - B.colAlignment) % g.c < g.c :=
      Nat.mod_lt _ hc
    have hshift : A.colShift ((col + g.c + A.colAlignment - B.colAlignment) % g.c)
        = B.colShift col := by
      rw [hAs _ hrecv_lt, Shift_recvRank col hAa hBa, hBs col hcol]
    have hL : A.localHeight ((col + g.c + A.colAlignment - B.colAlignment) % g.c)
        = LocalLength A.height (B.colShift col) g.c := by
      rw [hAh _ hrecv_lt, hshift]
    have hiL : iLocal
        < A.localHeight ((col + g.c + A.colAlignment - B.colAlignment) % g.c) := by
      rw [hL]; exact hiLocal
    have hLpos :
        0 < A.localHeight ((col + g.c + A.colAlignment - B.colAlignment) % g.c) :=
      Nat.lt_of_le_of_lt (Nat.zero_le iLocal) hiL
    show A.localData ((col + g.c + A.colAlignment - B.colAlignment) % g.c)
        ((j * LocalLength A.height (B.colShift col) g.c + iLocal)
          % A.localHeight ((col + g.c + A.colAlignment - B.colAlignment) % g.c))
        ((j * LocalLength A.height (B.colShift col) g.c + iLocal)
          / A.localHeight ((col + g.c + A.colAlignment - B.colAlignment) % g.c))
      = G (B.colShift col + iLocal * g.c) j
    rw [← hL, flat_mod j hiL, flat_div j hLpos hiL,
      hAd _ hrecv_lt iLocal hiL j hj, hshift]

end MRSTAR

/-- A 1 x 2 process grid used for concrete instantiations. -/
def exGrid : Grid := { r := 1, c := 2 }

/-- A concrete global 3 x 2 matrix, `G(i,j) = 4 i + j`. -/
def exG : Nat → Nat → Int := fun i j => 4 * (i : Int) + (j : Int)

/-- A concrete `[MR,* ]` ensemble representing `exG` on `exGrid` with column
alignment 0. -/
def exA : MRSTARMat Int :=
  { height := 3
    width := 2
    colAlignment := 0
    constrainedColAlignment := true
    viewing := false
    lockedView := false
    colShift := fun col => Shift col 0 2
    localHeight := fun col => LocalLength 3 (Shift col 0 2) 2
    localData := fun col iLocal j => exG (Shift col 0 2 + iLocal * 2) j }

/-- An empty non-viewing `[MR,* ]` target constrained to column alignment 0. -/
def exB0 : MRSTARMat Int :=
  { height := 0
    width := 0
    colAlignment := 0
    constrainedColAlignment := true
    viewing := false
    lockedView := false
    colShift := fun col => Shift col 0 2
    localHeight := fun _ => 0
    localData := fun _ _ _ => 0 }

/-- An empty non-viewing `[MR,* ]` target constrained to column alignment 1. -/
def exB1 : MRSTARMat Int :=
  { exB0 with
    colAlignment := 1
    colShift := fun col => Shift col 1 2 }

/-- An empty unconstrained (alignment-free) non-viewing `[MR,* ]` target. -/
def exBfree : MRSTARMat Int :=
  { exB0 with constrainedColAlignment := false }

/-- C6: assigning an `[MD,* ]`-distributed or a `[* ,MD]`-distributed source to
an `[MR,* ]` target fails unconditionally and fatally (the unimplemented
conversion throws), the failure is raised locally with an empty collective
trace, and no modified target state is ever produced. -/
theorem claim_C6 {α : Type} (g : Grid) (B : MRSTARMat α) (A : MDSTARMat α)
    (A2 : STARMDMat α) :
    MRSTAR.assignFromMDSTAR g B A
      = (Except.error "[MR,* ] = [MD,* ] not yet implemented.", []) ∧
    MRSTAR.assignFromSTARMD g B A2
      = (Except.error "[MR,* ] = [* ,MD] not yet implemented.", []) :=
  ⟨rfl, rfl⟩

/-- C4: assigning one `[MR,* ]` matrix to another with the same stride and
equal column alignment issues zero collectives and copies the source's local
matrix verbatim into the target. -/
theorem claim_C4 {α : Type} [Inhabited α] (g : Grid) (B A : MRSTARMat α)
    (hBv : B.viewing = false) (hBcon : B.constrainedColAlignment = true)
    (h : B.colAlignment = A.colAlignment) :
    (MRSTAR.assignFromMRSTAR g B A).2 = [] ∧
    (MRSTAR.assignFromMRSTAR g B A).1.localData = A.localData ∧
    (MRSTAR.assignFromMRSTAR g B A).1.localHeight = A.localHeight ∧
    (MRSTAR.assignFromMRSTAR g B A).1.height = A.height ∧
    (MRSTAR.assignFromMRSTAR g B A).1.width = A.width := by
  unfold MRSTAR.assignFromMRSTAR
  rw [hBv, hBcon]
  simp only [Bool.false_eq_true, if_false, eq_self_iff_true, if_true]
  rw [if_pos (show (MRSTAR.resizeUnchecked g B A.height A.width).colAlignment
      = A.colAlignment from h)]
  exact ⟨rfl, rfl, rfl, rfl, rfl⟩

/-- Witness for C4 at a concrete aligned pair. -/
theorem claim_C4_witness :
    (exB0.viewing = false ∧ exB0.constrainedColAlignment = true ∧
      exB0.colAlignment = exA.colAlignment) ∧
    ((MRSTAR.assignFromMRSTAR exGrid exB0 exA).2 = [] ∧
     (MRSTAR.assignFromMRSTAR exGrid exB0 exA).1.localData = exA.localData ∧
     (MRSTAR.assignFromMRSTAR exGrid exB0 exA).1.localHeight = exA.localHeight ∧
     (MRSTAR.assignFromMRSTAR exGrid exB0 exA).1.height = exA.height ∧
     (MRSTAR.assignFromMRSTAR exGrid exB0 exA).1.width = exA.width) :=
  ⟨⟨rfl, rfl, rfl⟩, claim_C4 exGrid exB0 exA rfl rfl rfl⟩

/-- C2: on a faithful `[MR,* ]` ensemble, `Get(i, j)` returns the global entry
`G(i, j)`, the same value on every rank (grid row and column); its trace is one
broadcast within the row scope, while `Set` and `Update` communicate
nothing. -/
theorem claim_C2 {α : Type} [Add α] (g : Grid) (M : MRSTARMat α)
    (G : Nat → Nat → α) (i j : Nat) (u : α) (hc : 0 < g.c)
    (hM : MRSTAR.repOK g M G) (hi : i < M.height) (hj : j < M.width) :
    (∀ row col, (MRSTAR.Get g M i j).1 row col = G i j) ∧
    (∀ row col row2 col2,
      (MRSTAR.Get g M i j).1 row col = (MRSTAR.Get g M i j).1 row2 col2) ∧
    (MRSTAR.Get g M i j).2 = [CollOp.broadcast CommScope.mrComm] ∧
    (MRSTAR.Set g M i j u).2 = [] ∧
    (MRSTAR.Update g M i j u).2 = [] := by
  refine ⟨?_, fun _ _ _ _ => rfl, rfl, rfl, rfl⟩
  intro row col
  exact MRSTAR.repOK_globalEntry hc hM hi hj

/-- Witness for C2 at a concrete faithful ensemble and entry (2, 1). -/
theorem claim_C2_witness :
    (0 < exGrid.c ∧ MRSTAR.repOK exGrid exA exG ∧ 2 < exA.height ∧
      1 < exA.width) ∧
    ((∀ row col, (MRSTAR.Get exGrid exA 2 1).1 row col = exG 2 1) ∧
     (∀ row col row2 col2,
       (MRSTAR.Get exGrid exA 2 1).1 row col
         = (MRSTAR.Get exGrid exA 2 1).1 row2 col2) ∧
     (MRSTAR.Get exGrid exA 2 1).2 = [CollOp.broadcast CommScope.mrComm] ∧
     (MRSTAR.Set exGrid exA 2 1 (5 : Int)).2 = [] ∧
     (MRSTAR.Update exGrid exA 2 1 (5 : Int)).2 = []) :=
  ⟨⟨by decide, by decide, by decide, by decide⟩,
    claim_C2 exGrid exA exG 2 1 (5 : Int) (by decide) (by decide) (by decide)
      (by decide)⟩

/-- C7: for an in-range index, `Set` and `Update` communicate nothing, write
only the local entry `((i − colShift)/c, j)` on the grid columns equal to the
owning column `(i + colAlignment) mod c`, leave every other local entry (and
every other process's storage) unchanged, and change no shape or distribution
field. -/
theorem claim_C7 {α : Type} [Add α] (g : Grid) (M : MRSTARMat α)
    (i j : Nat) (u : α) (_hi : i < M.height) (_hj : j < M.width) :
    (MRSTAR.Set g M i j u).2 = [] ∧
    (MRSTAR.Update g M i j u).2 = [] ∧
    (∀ col iLocal jLocal,
      (MRSTAR.Set g M i j u).1.localData col iLocal jLocal =
        if col = (i + M.colAlignment) % g.c ∧
            iLocal = (i - M.colShift ((i + M.colAlignment) % g.c)) / g.c ∧
            jLocal = j
        then u
        else M.localData col iLocal jLocal) ∧
    (∀ col iLocal jLocal,
      (MRSTAR.Update g M i j u).1.localData col iLocal jLocal =
        if col = (i + M.colAlignment) % g.c ∧
            iLocal = (i - M.colShift ((i + M.colAlignment) % g.c)) / g.c ∧
            jLocal = j
        then M.localData col iLocal jLocal + u
        else M.localData col iLocal jLocal) ∧
    (MRSTAR.Set g M i j u).1.height = M.height ∧
    (MRSTAR.Set g M i j u).1.width = M.width ∧
    (MRSTAR.Set g M i j u).1.colAlignment = M.colAlignment ∧
    (MRSTAR.Set g M i j u).1.colShift = M.colShift ∧
    (MRSTAR.Set g M i j u).1.localHeight = M.localHeight ∧
    (MRSTAR.Update g M i j u).1.height = M.height ∧
    (MRSTAR.Update g M i j u).1.width = M.width ∧
    (MRSTAR.Update g M i j u).1.colAlignment = M.colAlignment ∧
    (MRSTAR.Update g M i j u).1.colShift = M.colShift ∧
    (MRSTAR.Update g M i j u).1.localHeight = M.localHeight := by
  refine ⟨rfl, rfl, ?_, ?_, rfl, rfl, rfl, rfl, rfl, rfl, rfl, rfl, rfl, rfl⟩
  · intro col iLocal jLocal
    by_cases hcol : col = (i + M.colAlignment) % g.c
    · subst hcol; rfl
    · have hL : ¬ (col = (i + M.colAlignment) % g.c ∧
          iLocal = (i - M.colShift col) / g.c ∧ jLocal = j) :=
        fun hh => hcol hh.1
      have hR : ¬ (col = (i + M.colAlignment) % g.c ∧
          iLocal = (i - M.colShift ((i + M.colAlignment) % g.c)) / g.c ∧
          jLocal = j) :=
        fun hh => hcol hh.1
      dsimp only [MRSTAR.Set]
      rw [if_neg hL, if_neg hR]
  · intro col iLocal jLocal
    by_cases hcol : col = (i + M.colAlignment) % g.c
    · subst hcol; rfl
    · have hL : ¬ (col = (i + M.colAlignment) % g.c ∧
          iLocal = (i - M.colShift col) / g.c ∧ jLocal = j) :=
        fun hh => hcol hh.1
      have hR : ¬ (col = (i + M.colAlignment) % g.c ∧
          iLocal = (i - M.colShift ((i + M.colAlignment) % g.c)) / g.c ∧
          jLocal = j) :=
        fun hh => hcol hh.1
      dsimp only [MRSTAR.Update]
      rw [if_neg hL, if_neg hR]

/-- Witness for C7 at a concrete ensemble and entry (2, 1). -/
theorem claim_C7_witness :
    (2 < exA.height ∧ 1 < exA.width) ∧
    ((MRSTAR.Set exGrid exA 2 1 (5 : Int)).2 = [] ∧
     (MRSTAR.Update exGrid exA 2 1 (5 : Int)).2 = [] ∧
     (∀ col iLocal jLocal,
       (MRSTAR.Set exGrid exA 2 1 (5 : Int)).1.localData col iLocal jLocal =
         if col = (2 + exA.colAlignment) % exGrid.c ∧
             iLocal = (2 - exA.colShift ((2 + exA.colAlignment) % exGrid.c))
               / exGrid.c ∧
             jLocal = 1
         then (5 : Int)
         else exA.localData col iLocal jLocal) ∧
     (∀ col iLocal jLocal,
       (MRSTAR.Update exGrid exA 2 1 (5 : Int)).1.localData col iLocal jLocal =
         if col = (2 + exA.colAlignment) % exGrid.c ∧
             iLocal = (2 - exA.colShift ((2 + exA.colAlignment) % exGrid.c))
               / exGrid.c ∧
             jLocal = 1
         then exA.localData col iLocal jLocal + (5 : Int)
         else exA.localData col iLocal jLocal) ∧
     (MRSTAR.Set exGrid exA 2 1 (5 : Int)).1.height = exA.height ∧
     (MRSTAR.Set exGrid exA 2 1 (5 : Int)).1.width = exA.width ∧
     (MRSTAR.Set exGrid exA 2 1 (5 : Int)).1.colAlignment = exA.colAlignment ∧
     (MRSTAR.Set exGrid exA 2 1 (5 : Int)).1.colShift = exA.colShift ∧
     (MRSTAR.Set exGrid exA 2 1 (5 : Int)).1.localHeight = exA.localHeight ∧
     (MRSTAR.Update exGrid exA 2 1 (5 : Int)).1.height = exA.height ∧
     (MRSTAR.Update exGrid exA 2 1 (5 : Int)).1.width = exA.width ∧
     (MRSTAR.Update exGrid exA 2 1 (5 : Int)).1.colAlignment = exA.colAlignment ∧
     (MRSTAR.Update exGrid exA 2 1 (5 : Int)).1.colShift = exA.colShift ∧
     (MRSTAR.Update exGrid exA 2 1 (5 : Int)).1.localHeight = exA.localHeight) :=
  ⟨⟨by decide, by decide⟩,
    claim_C7 exGrid exA 2 1 (5 : Int) (by decide) (by decide)⟩

/-- The indices in `[0, n)` owned by shift `s` under stride `m` are exactly the
image of `[0, LocalLength n s m)` under `k ↦ s + k m`. -/
lemma filter_mod_eq_image {n s m : Nat} (hm : 0 < m) (hs : s < m) :
    (Finset.range n).filter (fun i => i % m = s)
      = (Finset.range (LocalLength n s m)).image (fun k => s + k * m) := by
  ext i
  simp only [Finset.mem_filter, Finset.mem_range, Finset.mem_image]
  constructor
  · rintro ⟨hin, hmod⟩
    refine ⟨i / m, ?_, ?_⟩
    · rw [← hmod]
      exact div_lt_LocalLength hm hin
    · rw [← hmod]
      exact Nat.mod_add_div' i m
  · rintro ⟨k, hk, rfl⟩
    constructor
    · exact lt_of_lt_LocalLength hm hk
    · rw [Nat.add_mul_mod_self_right]
      exact Nat.mod_eq_of_lt hs

/-- `LocalLength n s m` counts the indices in `[0, n)` congruent to `s`. -/
lemma LocalLength_card {n s m : Nat} (hm : 0 < m) (hs : s < m) :
    LocalLength n s m = ((Finset.range n).filter (fun i => i % m = s)).card := by
  rw [filter_mod_eq_image hm hs]
  rw [Finset.card_image_of_injective]
  · rw [Finset.card_range]
  · intro a b hab
    have hab1 : s + a * m = s + b * m := hab
    have hab2 : a * m = b * m := by omega
    exact Nat.eq_of_mul_eq_mul_right hm hab2

/-- C5: for every `n ≥ 0` and `stride ≥ 1`, `LocalLength(n, shift, stride)`
summed over the `stride` distinct shifts equals `n`, and `LocalLength` itself
counts the indices `i < n` with `i mod stride = shift` (the clamped ceiling
`⌈(n − shift)/stride⌉`). -/
theorem claim_C5 (n stride s : Nat) (hstride : 1 ≤ stride) (hs : s < stride) :
    (∑ t ∈ Finset.range stride, LocalLength n t stride) = n ∧
    LocalLength n s stride
      = ((Finset.range n).filter (fun i => i % stride = s)).card := by
  have hm : 0 < stride := hstride
  constructor
  · have hfib : ∀ x ∈ Finset.range n, x % stride ∈ Finset.range stride :=
      fun x _ => Finset.mem_range.mpr (Nat.mod_lt _ hm)
    have hcard := Finset.card_eq_sum_card_fiberwise hfib
    rw [Finset.card_range] at hcard
    rw [Finset.sum_congr rfl
      (fun t ht => LocalLength_card hm (Finset.mem_range.mp ht))]
    exact hcard.symm
  · exact LocalLength_card hm hs

/-- Witness for C5 at `n = 7`, `stride = 3`, `s = 2`. -/
theorem claim_C5_witness :
    (1 ≤ 3 ∧ 2 < 3) ∧
    ((∑ t ∈ Finset.range 3, LocalLength 7 t 3) = 7 ∧
     LocalLength 7 2 3
       = ((Finset.range 7).filter (fun i => i % 3 = 2)).card) :=
  ⟨⟨by decide, by decide⟩, claim_C5 7 3 2 (by decide) (by decide)⟩

/-- C1: redistributing an `[MR,* ]` matrix to `[* ,* ]` and back to `[MR,* ]`
with the original alignment, or to an alignment-shifted `[MR,* ]` and back,
reproduces every global entry exactly (round-trip identity on the represented
global matrix). -/
theorem claim_C1 {α : Type} [Inhabited α] (g : Grid) (M : MRSTARMat α)
    (G : Nat → Nat → α) (B0 B1 B2 : MRSTARMat α) (hc : 0 < g.c)
    (hM : MRSTAR.repOK g M G)
    (hB0v : B0.viewing = false) (hB0a : B0.colAlignment = M.colAlignment)
    (hB0s : MRSTAR.shiftOK g B0)
    (hB1v : B1.viewing = false) (hB1con : B1.constrainedColAlignment = true)
    (hB1a : B1.colAlignment < g.c) (hB1s : MRSTAR.shiftOK g B1)
    (hB2v : B2.viewing = false) (hB2con : B2.constrainedColAlignment = true)
    (hB2a : B2.colAlignment = M.colAlignment) (hB2s : MRSTAR.shiftOK g B2) :
    ((MRSTAR.assignFromSTARSTAR g B0 (starstarFromMRSTAR g M).1).1.height
        = M.height ∧
     (MRSTAR.assignFromSTARSTAR g B0 (starstarFromMRSTAR g M).1).1.width
        = M.width ∧
     (∀ i, i < M.height → ∀ j, j < M.width →
       MRSTAR.globalEntry g
           (MRSTAR.assignFromSTARSTAR g B0 (starstarFromMRSTAR g M).1).1 i j
         = MRSTAR.globalEntry g M i j)) ∧
    ((MRSTAR.assignFromMRSTAR g B2 (MRSTAR.assignFromMRSTAR g B1 M).1).1.height
        = M.height ∧
     (MRSTAR.assignFromMRSTAR g B2 (MRSTAR.assignFromMRSTAR g B1 M).1).1.width
        = M.width ∧
     (∀ i, i < M.height → ∀ j, j < M.width →
       MRSTAR.globalEntry g
           (MRSTAR.assignFromMRSTAR g B2 (MRSTAR.assignFromMRSTAR g B1 M).1).1
           i j
         = MRSTAR.globalEntry g M i j)) := by
  have hMa : M.colAlignment < g.c := hM.1
  constructor
  · have hS : ∀ i, i < (starstarFromMRSTAR g M).1.height →
        ∀ j, j < (starstarFromMRSTAR g M).1.width →
          (starstarFromMRSTAR g M).1.localData i j = G i j :=
      MRSTAR.starstarFromMRSTAR_entries hc hM
    obtain ⟨hrep, hh, hw, _⟩ :=
      MRSTAR.assignFromSTARSTAR_repOK hc hB0v (by rw [hB0a]; exact hMa) hB0s hS
    refine ⟨hh, hw, ?_⟩
    intro i hi j hj
    have hi1 : i
        < (MRSTAR.assignFromSTARSTAR g B0 (starstarFromMRSTAR g M).1).1.height := by
      rw [hh]; exact hi
    have hj1 : j
        < (MRSTAR.assignFromSTARSTAR g B0 (starstarFromMRSTAR g M).1).1.width := by
      rw [hw]; exact hj
    rw [MRSTAR.repOK_globalEntry hc hrep hi1 hj1,
      MRSTAR.repOK_globalEntry hc hM hi hj]
  · obtain ⟨hrep1, hh1, hw1, _⟩ :=
      MRSTAR.assignFromMRSTAR_repOK hc hM hB1v hB1con hB1a hB1s
    obtain ⟨hrep2, hh2, hw2, _⟩ :=
      MRSTAR.assignFromMRSTAR_repOK hc hrep1 hB2v hB2con
        (by rw [hB2a]; exact hMa) hB2s
    refine ⟨by rw [hh2, hh1], by rw [hw2, hw1], ?_⟩
    intro i hi j hj
    have hi2 : i
        < (MRSTAR.assignFromMRSTAR g B2
            (MRSTAR.assignFromMRSTAR g B1 M).1).1.height := by
      rw [hh2, hh1]; exact hi
    have hj2 : j
        < (MRSTAR.assignFromMRSTAR g B2
            (MRSTAR.assignFromMRSTAR g B1 M).1).1.width := by
      rw [hw2, hw1]; exact hj
    rw [MRSTAR.repOK_globalEntry hc hrep2 hi2 hj2,
      MRSTAR.repOK_globalEntry hc hM hi hj]

/-- Witness for C1: the concrete 3 x 2 matrix on the 1 x 2 grid, coarsened to
`[* ,* ]` and back, and shifted to alignment 1 and back to alignment 0. -/
theorem claim_C1_witness :
    (0 < exGrid.c ∧ MRSTAR.repOK exGrid exA exG ∧
     exB0.viewing = false ∧ exB0.colAlignment = exA.colAlignment ∧
     MRSTAR.shiftOK exGrid exB0 ∧
     exB1.viewing = false ∧ exB1.constrainedColAlignment = true ∧
     exB1.colAlignment < exGrid.c ∧ MRSTAR.shiftOK exGrid exB1 ∧
     exB0.constrainedColAlignment = true) ∧
    (((MRSTAR.assignFromSTARSTAR exGrid exB0 (starstarFromMRSTAR exGrid exA).1).1.height
        = exA.height ∧
      (MRSTAR.assignFromSTARSTAR exGrid exB0 (starstarFromMRSTAR exGrid exA).1).1.width
        = exA.width ∧
      (∀ i, i < exA.height → ∀ j, j < exA.width →
        MRSTAR.globalEntry exGrid
            (MRSTAR.assignFromSTARSTAR exGrid exB0
              (starstarFromMRSTAR exGrid exA).1).1 i j
          = MRSTAR.globalEntry exGrid exA i j)) ∧
     ((MRSTAR.assignFromMRSTAR exGrid exB0
          (MRSTAR.assignFromMRSTAR exGrid exB1 exA).1).1.height = exA.height ∧
      (MRSTAR.assignFromMRSTAR exGrid exB0
          (MRSTAR.assignFromMRSTAR exGrid exB1 exA).1).1.width = exA.width ∧
      (∀ i, i < exA.height → ∀ j, j < exA.width →
        MRSTAR.globalEntry exGrid
            (MRSTAR.assignFromMRSTAR exGrid exB0
              (MRSTAR.assignFromMRSTAR exGrid exB1 exA).1).1 i j
          = MRSTAR.globalEntry exGrid exA i j))) :=
  ⟨⟨by decide, by decide, by decide, by decide, by decide, by decide, by decide,
    by decide, by decide, by decide⟩,
   claim_C1 exGrid exA exG exB0 exB1 exB0 (by decide) (by decide) (by decide)
     (by decide) (by decide) (by decide) (by decide) (by decide) (by decide)
     (by decide) (by decide) (by decide) (by decide)⟩

/-- An empty concrete `[VR,* ]` source (zero global extent) on `exGrid`. -/
def exVR0 : VRSTARMat Int :=
  { height := 0
    width := 0
    colAlignment := 0
    colShift := fun q => Shift q 0 2
    localHeight := fun _ => 0
    localData := fun _ _ _ => 0 }

/-- C3 as stated is false: with zero global extent on both sides, the
`[MR,* ] = [VR,* ]` conversion still issues a collective — its trace is not
empty. -/
theorem claim_C3_counterexample :
    ¬ ((MRSTAR.assignFromVRSTAR exGrid exBfree exVR0).2 = []) := by
  decide

/-- C3 (amended): with zero global extent on either side, the
`[MR,* ] = [VR,* ]` conversion produces an empty result (every process's local
panel has zero entries), but it does not short-circuit: the all-gather within
the column scope is still issued (padded to the minimum collective message
size). -/
theorem claim_C3 {α : Type} [Inhabited α] (g : Grid) (B : MRSTARMat α)
    (A : VRSTARMat α) (hc : 0 < g.c) (hBv : B.viewing = false)
    (hBcon : B.constrainedColAlignment = false)
    (hzero : A.height = 0 ∨ A.width = 0) :
    (∀ col, (MRSTAR.assignFromVRSTAR g B A).1.localHeight col
        * (MRSTAR.assignFromVRSTAR g B A).1.width = 0) ∧
    CollOp.allGather CommScope.mcComm ∈ (MRSTAR.assignFromVRSTAR g B A).2 := by
  unfold MRSTAR.assignFromVRSTAR
  rw [hBv, hBcon]
  simp only [Bool.false_eq_true, if_false]
  constructor
  · intro col
    split
    all_goals
      show LocalLength A.height (Shift col (A.colAlignment % g.c) g.c) g.c
          * A.width = 0
      cases hzero with
      | inl h0 => rw [h0, LocalLength_zero _ hc]; exact Nat.zero_mul _
      | inr h0 => rw [h0]; exact Nat.mul_zero _
  · split
    · exact List.mem_cons_self _ _
    · exact List.mem_cons_of_mem _ (List.mem_cons_self _ _)

/-- Witness for the amended C3 at the concrete empty `[VR,* ]` source. -/
theorem claim_C3_witness :
    (0 < exGrid.c ∧ exBfree.viewing = false ∧
     exBfree.constrainedColAlignment = false ∧
     (exVR0.height = 0 ∨ exVR0.width = 0)) ∧
    ((∀ col, (MRSTAR.assignFromVRSTAR exGrid exBfree exVR0).1.localHeight col
        * (MRSTAR.assignFromVRSTAR exGrid exBfree exVR0).1.width = 0) ∧
     CollOp.allGather CommScope.mcComm
       ∈ (MRSTAR.assignFromVRSTAR exGrid exBfree exVR0).2) :=
  ⟨⟨by decide, rfl, rfl, Or.inl rfl⟩,
    claim_C3 exGrid exBfree exVR0 (by decide) rfl rfl (Or.inl rfl)⟩

/-- A concrete `[MR,MC]` reference matrix on `exGrid` with column alignment 1
and coherent shift fields. -/
def exMRMC : MRMCMat Int :=
  { height := 3
    width := 2
    colAlignment := 1
    rowAlignment := 0
    colShift := fun col => Shift col 1 2
    rowShift := fun row => Shift row 0 1
    localHeight := fun col => LocalLength 3 (Shift col 1 2) 2
    localWidth := fun row => LocalLength 2 (Shift row 0 1) 1
    localData := fun _ _ _ _ => 0 }

/-- C8: `AlignCols`/`AlignWith` on a matrix whose alignment is already
constrained fail fatally (no silent no-op); on a free matrix they succeed,
invalidating the storage (global extents 0, local matrix 0 x 0), setting the
column alignment from the argument or reference (in `[0, c)`), marking it
constrained, and leaving the shift consistent with the `Shift` formula. -/
theorem claim_C8 {α : Type} [Inhabited α] (g : Grid) (M N : MRSTARMat α)
    (A : MRMCMat α) (a : Nat)
    (hM : M.constrainedColAlignment = true)
    (hN : N.constrainedColAlignment = false)
    (ha : a < g.c) (hAa : A.colAlignment < g.c)
    (hAs : ∀ col, col < g.c → A.colShift col = Shift col A.colAlignment g.c) :
    (∃ e, MRSTAR.AlignCols g M a = .error e) ∧
    (∃ e, MRSTAR.AlignWithMRMC g M A = .error e) ∧
    (∃ M2, MRSTAR.AlignCols g N a = .ok M2 ∧ M2.height = 0 ∧ M2.width = 0 ∧
      (∀ col, M2.localHeight col = 0) ∧ M2.colAlignment = a ∧
      M2.colAlignment < g.c ∧
      (∀ col, col < g.c → M2.colShift col = Shift col M2.colAlignment g.c) ∧
      M2.constrainedColAlignment = true) ∧
    (∃ M3, MRSTAR.AlignWithMRMC g N A = .ok M3 ∧ M3.height = 0 ∧ M3.width = 0 ∧
      (∀ col, M3.localHeight col = 0) ∧ M3.colAlignment = A.colAlignment ∧
      M3.colAlignment < g.c ∧
      (∀ col, col < g.c → M3.colShift col = Shift col M3.colAlignment g.c) ∧
      M3.constrainedColAlignment = true) := by
  refine ⟨⟨"Assertion that column alignment be free failed", ?_⟩,
    ⟨"Assertion that column alignment be free failed", ?_⟩,
    ⟨{ N with
        colAlignment := a
        colShift := fun col => Shift col a g.c
        constrainedColAlignment := true
        height := 0
        width := 0
        localHeight := fun _ => 0
        localData := fun _ _ _ => default },
      ?_, rfl, rfl, fun col => rfl, rfl, ha, fun col _ => rfl, rfl⟩,
    ⟨{ N with
        colAlignment := A.colAlignment
        colShift := A.colShift
        constrainedColAlignment := true
        height := 0
        width := 0
        localHeight := fun _ => 0
        localData := fun _ _ _ => default },
      ?_, rfl, rfl, fun col => rfl, rfl, hAa, hAs, rfl⟩⟩
  · unfold MRSTAR.AlignCols
    rw [hM]
    rfl
  · unfold MRSTAR.AlignWithMRMC
    rw [hM]
    rfl
  · unfold MRSTAR.AlignCols
    rw [hN, if_neg (Nat.not_le.mpr ha)]
    rfl
  · unfold MRSTAR.AlignWithMRMC
    rw [hN]
    rfl

/-- Witness for C8 on concrete constrained (`exB0`) and free (`exBfree`)
targets with the `[MR,MC]` reference `exMRMC` and alignment 1. -/
theorem claim_C8_witness :
    (exB0.constrainedColAlignment = true ∧
     exBfree.constrainedColAlignment = false ∧ 1 < exGrid.c ∧
     exMRMC.colAlignment < exGrid.c ∧
     (∀ col, col < exGrid.c →
       exMRMC.colShift col = Shift col exMRMC.colAlignment exGrid.c)) ∧
    ((∃ e, MRSTAR.AlignCols exGrid exB0 1 = .error e) ∧
     (∃ e, MRSTAR.AlignWithMRMC exGrid exB0 exMRMC = .error e) ∧
     (∃ M2, MRSTAR.AlignCols exGrid exBfree 1 = .ok M2 ∧ M2.height = 0 ∧
       M2.width = 0 ∧ (∀ col, M2.localHeight col = 0) ∧ M2.colAlignment = 1 ∧
       M2.colAlignment < exGrid.c ∧
       (∀ col, col < exGrid.c →
         M2.colShift col = Shift col M2.colAlignment exGrid.c) ∧
       M2.constrainedColAlignment = true) ∧
     (∃ M3, MRSTAR.AlignWithMRMC exGrid exBfree exMRMC = .ok M3 ∧
       M3.height = 0 ∧ M3.width = 0 ∧ (∀ col, M3.localHeight col = 0) ∧
       M3.colAlignment = exMRMC.colAlignment ∧ M3.colAlignment < exGrid.c ∧
       (∀ col, col < exGrid.c →
         M3.colShift col = Shift col M3.colAlignment exGrid.c) ∧
       M3.constrainedColAlignment = true)) :=
  ⟨⟨rfl, rfl, by decide, by decide, by decide⟩,
    claim_C8 exGrid exB0 exBfree exMRMC 1 rfl rfl (by decide) (by decide)
      (by decide)⟩

/-- A concrete view (3 x 2, non-locked) for resize-failure instantiation. -/
def exV : MRSTARMat Int :=
  { exA with viewing := true }

/-- A concrete locked view for resize-failure instantiation. -/
def exL : MRSTARMat Int :=
  { exA with viewing := true, lockedView := true }

/-- C9: `ResizeTo` fails on a locked view and on a view being resized to a
mismatched shape; on a non-view it succeeds, sets the global shape, and
recomputes each process's local shape as
`LocalLength(h, colShift, c)` rows by `w` columns in freshly allocated
storage. -/
theorem claim_C9 {α : Type} [Inhabited α] (g : Grid) (M V L : MRSTARMat α)
    (h w hv wv : Nat) (hMv : M.viewing = false) (hMl : M.lockedView = false)
    (hLl : L.lockedView = true) (hVl : V.lockedView = false)
    (hVv : V.viewing = true) (hmm : hv ≠ V.height ∨ wv ≠ V.width) :
    (∃ e, MRSTAR.ResizeTo g L h w = .error e) ∧
    (∃ e, MRSTAR.ResizeTo g V hv wv = .error e) ∧
    (∃ M2, MRSTAR.ResizeTo g M h w = .ok M2 ∧ M2.height = h ∧ M2.width = w ∧
      ∀ col, M2.localHeight col = LocalLength h (M.colShift col) g.c) := by
  refine ⟨⟨"Assertion that matrix not be a locked view failed", ?_⟩,
    ⟨"Viewed matrices cannot be resized to a different shape", ?_⟩,
    ⟨MRSTAR.resizeUnchecked g M h w, ?_, rfl, rfl, fun col => rfl⟩⟩
  · unfold MRSTAR.ResizeTo
    rw [hLl]
    rfl
  · unfold MRSTAR.ResizeTo
    rw [hVl, hVv]
    have hb : (hv != V.height || wv != V.width) = true := by
      simp only [Bool.or_eq_true, bne_iff_ne]
      exact hmm
    rw [hb]
    rfl
  · unfold MRSTAR.ResizeTo
    rw [hMl, hMv]
    rfl

/-- Witness for C9: resizing the locked view `exL`, the view `exV` to a
mismatched 4 x 2 shape, and the owned matrix `exB0` to 5 x 3. -/
theorem claim_C9_witness :
    (exB0.viewing = false ∧ exB0.lockedView = false ∧
     exL.lockedView = true ∧ exV.lockedView = false ∧ exV.viewing = true ∧
     ((4 : Nat) ≠ exV.height ∨ (2 : Nat) ≠ exV.width)) ∧
    ((∃ e, MRSTAR.ResizeTo exGrid exL 5 3 = .error e) ∧
     (∃ e, MRSTAR.ResizeTo exGrid exV 4 2 = .error e) ∧
     (∃ M2, MRSTAR.ResizeTo exGrid exB0 5 3 = .ok M2 ∧ M2.height = 5 ∧
       M2.width = 3 ∧
       ∀ col, M2.localHeight col = LocalLength 5 (exB0.colShift col) exGrid.c)) :=
  ⟨⟨rfl, rfl, rfl, rfl, rfl, Or.inl (by decide)⟩,
    claim_C9 exGrid exB0 exV exL 5 3 4 2 rfl rfl rfl rfl rfl
      (Or.inl (by decide))⟩

/-- C10: every operation establishing or changing the column alignment of an
`[MR,* ]` matrix — `AlignCols`, a submatrix `View`, and assignment from
`[MR,MC]` or `[VR,* ]` to an unconstrained non-view target — leaves
`colAlignment` in `[0, c)` with every process's `colShift` equal to
`Shift(MRRank, colAlignment, c)`; a submatrix view at row offset `i` gets
alignment `(owner's colAlignment + i) mod c`. -/
theorem claim_C10 {α : Type} [Inhabited α] (g : Grid) (M M2 : MRSTARMat α)
    (a : Nat) (Amr : MRSTARMat α) (Amrmc : MRMCMat α) (Avr : VRSTARMat α)
    (B B2 : MRSTARMat α) (i j h w : Nat) (hc : 0 < g.c)
    (hM2 : MRSTAR.AlignCols g M a = Except.ok M2)
    (hAmc : Amrmc.colAlignment < g.c)
    (hBv : B.viewing = false) (hBcon : B.constrainedColAlignment = false)
    (hB2v : B2.viewing = false) (hB2con : B2.constrainedColAlignment = false) :
    (M2.colAlignment = a ∧ M2.colAlignment < g.c ∧ MRSTAR.shiftOK g M2) ∧
    ((MRSTAR.View g Amr i j h w).colAlignment = (Amr.colAlignment + i) % g.c ∧
     (MRSTAR.View g Amr i j h w).colAlignment < g.c ∧
     MRSTAR.shiftOK g (MRSTAR.View g Amr i j h w)) ∧
    ((MRSTAR.assignFromMRMC g B Amrmc).1.colAlignment = Amrmc.colAlignment ∧
     (MRSTAR.assignFromMRMC g B Amrmc).1.colAlignment < g.c ∧
     MRSTAR.shiftOK g (MRSTAR.assignFromMRMC g B Amrmc).1) ∧
    ((MRSTAR.assignFromVRSTAR g B2 Avr).1.colAlignment
        = Avr.colAlignment % g.c ∧
     (MRSTAR.assignFromVRSTAR g B2 Avr).1.colAlignment < g.c ∧
     MRSTAR.shiftOK g (MRSTAR.assignFromVRSTAR g B2 Avr).1) := by
  refine ⟨?_, ⟨rfl, Nat.mod_lt _ hc, fun col _ => rfl⟩, ?_, ?_⟩
  · unfold MRSTAR.AlignCols at hM2
    split at hM2
    · exact absurd hM2 (by simp)
    · split at hM2
      · exact absurd hM2 (by simp)
      · rename_i hle
        cases hM2
        exact ⟨rfl, show a < g.c by omega, fun col _ => rfl⟩
  · unfold MRSTAR.assignFromMRMC
    rw [hBv, hBcon]
    simp only [Bool.false_eq_true, if_false]
    split
    · exact ⟨rfl, hAmc, fun col _ => rfl⟩
    · exact ⟨rfl, hAmc, fun col _ => rfl⟩
  · unfold MRSTAR.assignFromVRSTAR
    rw [hB2v, hB2con]
    simp only [Bool.false_eq_true, if_false]
    split
    · exact ⟨rfl, Nat.mod_lt _ hc, fun col _ => rfl⟩
    · exact ⟨rfl, Nat.mod_lt _ hc, fun col _ => rfl⟩

/-- Witness for C10 at concrete inputs on the 1 x 2 grid. -/
theorem claim_C10_witness :
    (0 < exGrid.c ∧
     MRSTAR.AlignCols exGrid exBfree 1 = Except.ok
       { exBfree with
         colAlignment := 1
         colShift := fun col => Shift col 1 exGrid.c
         constrainedColAlignment := true
         height := 0
         width := 0
         localHeight := fun _ => 0
         localData := fun _ _ _ => default } ∧
     exMRMC.colAlignment < exGrid.c ∧
     exBfree.viewing = false ∧ exBfree.constrainedColAlignment = false) ∧
    (({ exBfree with
         colAlignment := 1
         colShift := fun col => Shift col 1 exGrid.c
         constrainedColAlignment := true
         height := 0
         width := 0
         localHeight := fun _ => 0
         localData := fun _ _ _ => default } : MRSTARMat Int).colAlignment = 1 ∧
     ({ exBfree with
         colAlignment := 1
         colShift := fun col => Shift col 1 exGrid.c
         constrainedColAlignment := true
         height := 0
         width := 0
         localHeight := fun _ => 0
         localData := fun _ _ _ => default } : MRSTARMat Int).colAlignment
        < exGrid.c ∧
     MRSTAR.shiftOK exGrid
       ({ exBfree with
          colAlignment := 1
          colShift := fun col => Shift col 1 exGrid.c
          constrainedColAlignment := true
          height := 0
          width := 0
          localHeight := fun _ => 0
          localData := fun _ _ _ => default } : MRSTARMat Int)) ∧
    ((MRSTAR.View exGrid exA 1 0 2 2).colAlignment
        = (exA.colAlignment + 1) % exGrid.c ∧
     (MRSTAR.View exGrid exA 1 0 2 2).colAlignment < exGrid.c ∧
     MRSTAR.shiftOK exGrid (MRSTAR.View exGrid exA 1 0 2 2)) ∧
    ((MRSTAR.assignFromMRMC exGrid exBfree exMRMC).1.colAlignment
        = exMRMC.colAlignment ∧
     (MRSTAR.assignFromMRMC exGrid exBfree exMRMC).1.colAlignment < exGrid.c ∧
     MRSTAR.shiftOK exGrid (MRSTAR.assignFromMRMC exGrid exBfree exMRMC).1) ∧
    ((MRSTAR.assignFromVRSTAR exGrid exBfree exVR0).1.colAlignment
        = exVR0.colAlignment % exGrid.c ∧
     (MRSTAR.assignFromVRSTAR exGrid exBfree exVR0).1.colAlignment < exGrid.c ∧
     MRSTAR.shiftOK exGrid (MRSTAR.assignFromVRSTAR exGrid exBfree exVR0).1) :=
  ⟨⟨by decide, rfl, by decide, rfl, rfl⟩,
    claim_C10 exGrid exBfree
      { exBfree with
        colAlignment := 1
        colShift := fun col => Shift col 1 exGrid.c
        constrainedColAlignment := true
        height := 0
        width := 0
        localHeight := fun _ => 0
        localData := fun _ _ _ => default }
      1 exA exMRMC exVR0 exBfree exBfree 1 0 2 2 (by decide) rfl (by decide)
      rfl rfl rfl rfl⟩
